import Mathlib

/-!
Verification of the V4L2 capture backend (`src/backends/capture/v4l2.rs`):
the configuration transaction `set_camera_format`, its convenience mutators,
and the stream-session bookkeeping, shallowly embedded as Lean functions over
an explicit session state and an oracle describing the outcome of each
OS-level call made during one transaction.
-/

namespace NokhwaV4L2

/-- Modelled from the spec: `Resolution` (from the crate's `utils` module,
not under `src/`) — width × height, both non-negative integers. -/
structure Resolution where
  width : Nat
  height : Nat
deriving DecidableEq, Repr

/-- Modelled from the spec: `Resolution::new`. -/
def Resolution.new (w h : Nat) : Resolution :=
  ⟨w, h⟩

/-- Modelled from the spec: `FrameFormat` (crate `utils` module, not under
`src/`) — enumerated pixel encoding, closed variant set `{MJPEG, YUYV}`. -/
inductive FrameFormat where
  | MJPEG
  | YUYV
deriving DecidableEq, Repr

/-- Modelled from the spec: `CameraFormat` (crate `utils` module, not under
`src/`) — resolution, frame encoding, framerate; a copyable value type. -/
structure CameraFormat where
  resolution : Resolution
  format : FrameFormat
  framerate : Nat
deriving DecidableEq, Repr

/-- Modelled from the spec: `CameraFormat::new(resolution, format, framerate)`. -/
def CameraFormat.new (r : Resolution) (f : FrameFormat) (fps : Nat) : CameraFormat :=
  ⟨r, f, fps⟩

/-- Modelled from the spec: `CameraFormat::width()` accessor. -/
def CameraFormat.width (c : CameraFormat) : Nat :=
  c.resolution.width

/-- Modelled from the spec: `CameraFormat::height()` accessor. -/
def CameraFormat.height (c : CameraFormat) : Nat :=
  c.resolution.height

/-- Modelled from the spec: `CameraFormat::set_resolution` replaces only the
resolution field. -/
def CameraFormat.set_resolution (c : CameraFormat) (r : Resolution) : CameraFormat :=
  { c with resolution := r }

/-- Modelled from the spec: `CameraFormat::set_framerate` replaces only the
framerate field. -/
def CameraFormat.set_framerate (c : CameraFormat) (fps : Nat) : CameraFormat :=
  { c with framerate := fps }

/-- Modelled from the spec: `CameraFormat::set_format` replaces only the frame
encoding field. -/
def CameraFormat.set_format (c : CameraFormat) (f : FrameFormat) : CameraFormat :=
  { c with format := f }

/-- Modelled from the spec: `CameraFormat::default()` (crate `utils` module,
not under `src/`) — the system-default format, with framerate above zero. -/
def CameraFormat.defaultFormat : CameraFormat :=
  ⟨⟨640, 480⟩, FrameFormat.MJPEG, 30⟩

/-- Modelled from the spec: `NokhwaError` (crate `error` module, not under
`src/`) — the flat error taxonomy of §7, each variant carrying context
strings. -/
inductive NokhwaError where
  | CouldntOpenDevice (detail : String)
  | CouldntQueryDevice (property : String) (error : String)
  | CouldntSetProperty (property : String) (value : String) (error : String)
  | CouldntOpenStream (detail : String)
deriving DecidableEq, Repr

/-- The OS-native format of the external `v4l` crate: width, height and a
four-character pixel code, as built by `Format::new` in
`From<CameraFormat> for Format` (v4l2.rs lines 15–24). -/
structure OSFormat where
  width : Nat
  height : Nat
  fourcc : String
deriving DecidableEq, Repr

/-- `Format::new(width, height, fourcc)` of the external `v4l` crate. -/
def OSFormat.new (w h : Nat) (p : String) : OSFormat :=
  ⟨w, h, p⟩

/-- The `From<CameraFormat> for Format` impl (v4l2.rs lines 15–24): translate
the enumerated encoding to its four-character code and keep width and height. -/
def formatFromCameraFormat (cam_fmt : CameraFormat) : OSFormat :=
  let pxfmt :=
    match cam_fmt.format with
    | FrameFormat.MJPEG => "MJPG"
    | FrameFormat.YUYV => "YUYV"
  OSFormat.new cam_fmt.width cam_fmt.height pxfmt

/-- Rendering of an `OSFormat` as a string, standing in for the external
`v4l::Format` `Display` impl used for the `value` field of
`CouldntSetProperty`. -/
def OSFormat.render (f : OSFormat) : String :=
  toString f.width ++ "x" ++ toString f.height ++ " " ++ f.fourcc

/-- Rendering of framerate parameters as a string, standing in for the
external `v4l::Parameters` `Display` impl. -/
def paramsRender (fps : Nat) : String :=
  "1/" ++ toString fps

/-- The OS-level configuration held by the device itself: the state read by
`device.format()` / `device.params()` and written by `device.set_format()` /
`device.set_params()` of the external `v4l` crate. A successful set stores the
requested value exactly; a failed set leaves the state untouched. -/
structure DeviceState where
  fmt : OSFormat
  fps : Nat
deriving DecidableEq, Repr

/-- Modelled from the spec: `CameraInfo` (crate `utils` module, not under
`src/`) — immutable identity data; identity is the index. -/
structure CameraInfo where
  human_name : String
  description : String
  misc : String
  index : Nat
deriving DecidableEq, Repr

/-- The session state of `V4LCaptureDevice` (v4l2.rs lines 31–36): cached
`camera_format`, camera info, the device with its OS-level configuration, and
the optional stream handle (a `MmapStream` modelled as an opaque token). -/
structure V4LCaptureDevice where
  camera_format : Option CameraFormat
  camera_info : CameraInfo
  device : DeviceState
  stream_handle : Option Nat
deriving DecidableEq, Repr

/-- Outcome oracle for the (at most seven) external `v4l` calls a single
`set_camera_format` transaction can make, in source order. `none` means the
call succeeds; `some e` means it fails with OS error text `e`. `streamId` is
the token of the `MmapStream` produced when `MmapStream::new` succeeds. -/
structure V4LOracle where
  queryFormat : Option String
  queryParams : Option String
  setFormatNew : Option String
  setParamsNew : Option String
  streamCreate : Option String
  streamId : Nat
  setFormatUndo : Option String
  setParamsUndo : Option String
deriving DecidableEq, Repr

/-- `is_stream_open` (v4l2.rs lines 220–222). -/
def is_stream_open (s : V4LCaptureDevice) : Bool :=
  s.stream_handle.isSome

/-- `get_camera_format` (v4l2.rs lines 77–79). -/
def get_camera_format (s : V4LCaptureDevice) : Option CameraFormat :=
  s.camera_format

/-- `set_camera_format` (v4l2.rs lines 94–162), embedded over the session
state and the call-outcome oracle. Returns the post-call state and the Rust
function's `Result`. Each early `return` of the source is a branch returning
the state accumulated so far; note that on the stream-recreation failure path
the assignment `self.stream_handle = Some(..)` is never reached, so the old
handle is kept. -/
def set_camera_format (s : V4LCaptureDevice) (o : V4LOracle) (new_fmt : CameraFormat) :
    V4LCaptureDevice × Except NokhwaError Unit :=
  match o.queryFormat with
  | some why => (s, Except.error (NokhwaError.CouldntQueryDevice "Resolution, FrameFormat" why))
  | none =>
    let prev_format := s.device.fmt
    match o.queryParams with
    | some why => (s, Except.error (NokhwaError.CouldntQueryDevice "Framerate" why))
    | none =>
      let prev_fps := s.device.fps
      let format := formatFromCameraFormat new_fmt
      let framerate := new_fmt.framerate
      match o.setFormatNew with
      | some why =>
        (s, Except.error
          (NokhwaError.CouldntSetProperty "Resolution, FrameFormat" format.render why))
      | none =>
        let s1 : V4LCaptureDevice := { s with device := { s.device with fmt := format } }
        match o.setParamsNew with
        | some why =>
          (s1, Except.error
            (NokhwaError.CouldntSetProperty "Framerate" (paramsRender framerate) why))
        | none =>
          let s2 : V4LCaptureDevice := { s1 with device := { s1.device with fps := framerate } }
          if s2.stream_handle.isSome then
            match o.streamCreate with
            | none =>
              let s3 : V4LCaptureDevice := { s2 with stream_handle := some o.streamId }
              ({ s3 with camera_format := some new_fmt }, Except.ok ())
            | some why =>
              match o.setFormatUndo with
              | some why2 =>
                (s2, Except.error (NokhwaError.CouldntSetProperty
                  "Attempt undo due to stream acquisition failure. Resolution, FrameFormat"
                  prev_format.render why2))
              | none =>
                let s3 : V4LCaptureDevice :=
                  { s2 with device := { s2.device with fmt := prev_format } }
                match o.setParamsUndo with
                | some why2 =>
                  (s3, Except.error (NokhwaError.CouldntSetProperty
                    "Attempt undo due to stream acquisition failure. Framerate"
                    (paramsRender prev_fps) why2))
                | none =>
                  let s4 : V4LCaptureDevice :=
                    { s3 with device := { s3.device with fps := prev_fps } }
                  (s4, Except.error (NokhwaError.CouldntOpenStream why))
          else
            ({ s2 with camera_format := some new_fmt }, Except.ok ())

/-- `init_camera_format_default` (v4l2.rs lines 82–92). -/
def init_camera_format_default (s : V4LCaptureDevice) (o : V4LOracle) (overwrite : Bool) :
    V4LCaptureDevice × Except NokhwaError Unit :=
  match s.camera_format with
  | some _ =>
    if overwrite then set_camera_format s o CameraFormat.defaultFormat
    else (s, Except.ok ())
  | none => set_camera_format s o CameraFormat.defaultFormat

/-- `set_resolution` (v4l2.rs lines 169–178). -/
def set_resolution (s : V4LCaptureDevice) (o : V4LOracle) (new_res : Resolution) :
    V4LCaptureDevice × Except NokhwaError Unit :=
  match s.camera_format with
  | some fmt => set_camera_format s o (fmt.set_resolution new_res)
  | none =>
    ({ s with camera_format := some (CameraFormat.new new_res FrameFormat.MJPEG 0) },
      Except.ok ())

/-- `set_framerate` (v4l2.rs lines 185–198). -/
def set_framerate (s : V4LCaptureDevice) (o : V4LOracle) (new_fps : Nat) :
    V4LCaptureDevice × Except NokhwaError Unit :=
  match s.camera_format with
  | some fmt => set_camera_format s o (fmt.set_framerate new_fps)
  | none =>
    ({ s with camera_format := some (CameraFormat.new (Resolution.new 0 0) FrameFormat.MJPEG new_fps) },
      Except.ok ())

/-- `set_frameformat` (v4l2.rs lines 205–214). -/
def set_frameformat (s : V4LCaptureDevice) (o : V4LOracle) (fourcc : FrameFormat) :
    V4LCaptureDevice × Except NokhwaError Unit :=
  match s.camera_format with
  | some fmt => set_camera_format s o (fmt.set_format fourcc)
  | none =>
    ({ s with camera_format := some (CameraFormat.new (Resolution.new 0 0) fourcc 0) },
      Except.ok ())

/-- Iterated `set_camera_format`: run a list of (oracle, argument) calls,
threading the session state. -/
def runCalls (s : V4LCaptureDevice) : List (V4LOracle × CameraFormat) → V4LCaptureDevice
  | [] => s
  | c :: rest => runCalls (set_camera_format s c.1 c.2).1 rest

/-- The argument of the most recent call in the run that returned success,
starting from accumulator `acc` (the cache before the run). -/
def lastSuccessfulArg (s : V4LCaptureDevice) (acc : Option CameraFormat) :
    List (V4LOracle × CameraFormat) → Option CameraFormat
  | [] => acc
  | c :: rest =>
    let step := set_camera_format s c.1 c.2
    lastSuccessfulArg step.1 (if step.2.isOk then some c.2 else acc) rest

/-- Concrete camera info fixture for evaluating the transaction on inputs. -/
def exInfo : CameraInfo :=
  ⟨"cam", "", "drv", 0⟩

/-- Concrete device fixture: OS-level 1280x720 MJPG at 30 fps. -/
def exDevice : DeviceState :=
  ⟨⟨1280, 720, "MJPG"⟩, 30⟩

/-- Concrete cached format G matching the device fixture. -/
def exFmtG : CameraFormat :=
  ⟨⟨1280, 720⟩, FrameFormat.MJPEG, 30⟩

/-- Concrete requested format F. -/
def exFmtF : CameraFormat :=
  ⟨⟨1920, 1080⟩, FrameFormat.YUYV, 60⟩

/-- A session that is streaming (stream handle present) with G cached. -/
def exStreaming : V4LCaptureDevice :=
  ⟨some exFmtG, exInfo, exDevice, some 7⟩

/-- A configured, non-streaming session with G cached. -/
def exConfigured : V4LCaptureDevice :=
  ⟨some exFmtG, exInfo, exDevice, none⟩

/-- A freshly opened session: no cached format, no stream. -/
def exFresh : V4LCaptureDevice :=
  ⟨none, exInfo, exDevice, none⟩

/-- Oracle where every OS call succeeds. -/
def exOracleOk : V4LOracle :=
  ⟨none, none, none, none, none, 8, none, none⟩

/-- Oracle where stream recreation fails but everything else succeeds. -/
def exOracleStreamFail : V4LOracle :=
  ⟨none, none, none, none, some "busy", 8, none, none⟩

/-- Oracle where the initial format snapshot query fails. -/
def exOracleQfFail : V4LOracle :=
  ⟨some "efmt", none, none, none, none, 8, none, none⟩

/-- Oracle where the framerate snapshot query fails. -/
def exOracleQpFail : V4LOracle :=
  ⟨none, some "efps", none, none, none, 8, none, none⟩

/-- Oracle where applying the new framerate fails. -/
def exOracleSpFail : V4LOracle :=
  ⟨none, none, none, some "espfail", none, 8, none, none⟩

/-- Oracle where stream recreation fails and the rollback re-apply of the
snapshot format also fails. -/
def exOracleUndoFail : V4LOracle :=
  ⟨none, none, none, none, some "busy", 8, some "undofail", none⟩

/-- The cached `CameraFormat` after a `set_camera_format` call is the argument
exactly when the call succeeded, and the pre-call cache otherwise (the single
write at v4l2.rs line 160 is reached only on the full-success path). -/
theorem set_camera_format_cache (s : V4LCaptureDevice) (o : V4LOracle) (f : CameraFormat) :
    (set_camera_format s o f).1.camera_format =
      if (set_camera_format s o f).2.isOk then some f else s.camera_format := by
  obtain ⟨cf, ci, dev, sh⟩ := s
  obtain ⟨qf, qp, sfn, spn, sc, sid, sfu, spu⟩ := o
  cases qf <;> cases qp <;> cases sfn <;> cases spn <;> cases sc <;>
    cases sfu <;> cases spu <;> cases sh <;>
    simp [set_camera_format, Except.isOk, Except.toBool]

/-- Claim C1: if a stream session exists, both snapshot queries and both
applies succeed, stream recreation fails, and both rollback re-applies
succeed, then `set_camera_format` returns `CouldntOpenStream` with the
original stream error, the OS-level format and framerate are restored to the
snapshotted values, and the cached `CameraFormat` is unchanged. -/
theorem c1_stream_failure_rollback_restores
    (s : V4LCaptureDevice) (o : V4LOracle) (f : CameraFormat) (why : String)
    (hstream : s.stream_handle.isSome = true)
    (hqf : o.queryFormat = none) (hqp : o.queryParams = none)
    (hsf : o.setFormatNew = none) (hsp : o.setParamsNew = none)
    (hsc : o.streamCreate = some why)
    (hfu : o.setFormatUndo = none) (hpu : o.setParamsUndo = none) :
    (set_camera_format s o f).2 = Except.error (NokhwaError.CouldntOpenStream why) ∧
    (set_camera_format s o f).1.device.fmt = s.device.fmt ∧
    (set_camera_format s o f).1.device.fps = s.device.fps ∧
    (set_camera_format s o f).1.camera_format = s.camera_format := by
  simp [set_camera_format, hqf, hqp, hsf, hsp, hsc, hfu, hpu, hstream]

/-- Witness for C1 at the concrete streaming fixture. -/
theorem c1_witness :
    (set_camera_format exStreaming exOracleStreamFail exFmtF).2 =
      Except.error (NokhwaError.CouldntOpenStream "busy") ∧
    (set_camera_format exStreaming exOracleStreamFail exFmtF).1.device.fmt =
      exStreaming.device.fmt ∧
    (set_camera_format exStreaming exOracleStreamFail exFmtF).1.device.fps =
      exStreaming.device.fps ∧
    (set_camera_format exStreaming exOracleStreamFail exFmtF).1.camera_format =
      exStreaming.camera_format :=
  c1_stream_failure_rollback_restores exStreaming exOracleStreamFail exFmtF "busy"
    rfl rfl rfl rfl rfl rfl rfl rfl

/-- Claim C2 counterexample: at a concrete streaming session, with stream
recreation failing and both rollback re-applies succeeding, the call returns
`CouldntOpenStream` yet `is_stream_open` is still `true` — the claim says it
would be `false`. -/
theorem c2_counterexample :
    (set_camera_format exStreaming exOracleStreamFail exFmtF).2 =
      Except.error (NokhwaError.CouldntOpenStream "busy") ∧
    is_stream_open (set_camera_format exStreaming exOracleStreamFail exFmtF).1 = true := by
  exact ⟨rfl, rfl⟩

/-- Claim C2 amended: on stream-recreation failure with successful rollback,
the old stream handle is retained (the assignment of a new handle at v4l2.rs
line 133 is never executed on the error path), so `is_stream_open` still
returns `true` afterwards. -/
theorem c2_rollback_keeps_old_stream
    (s : V4LCaptureDevice) (o : V4LOracle) (f : CameraFormat) (why : String)
    (hstream : s.stream_handle.isSome = true)
    (hqf : o.queryFormat = none) (hqp : o.queryParams = none)
    (hsf : o.setFormatNew = none) (hsp : o.setParamsNew = none)
    (hsc : o.streamCreate = some why)
    (hfu : o.setFormatUndo = none) (hpu : o.setParamsUndo = none) :
    (set_camera_format s o f).1.stream_handle = s.stream_handle ∧
    is_stream_open (set_camera_format s o f).1 = true := by
  constructor
  · simp [set_camera_format, hqf, hqp, hsf, hsp, hsc, hfu, hpu, hstream]
  · simp [is_stream_open, set_camera_format, hqf, hqp, hsf, hsp, hsc, hfu, hpu, hstream]

/-- Witness for the amended C2 at the concrete streaming fixture. -/
theorem c2_witness :
    (set_camera_format exStreaming exOracleStreamFail exFmtF).1.stream_handle =
      exStreaming.stream_handle ∧
    is_stream_open (set_camera_format exStreaming exOracleStreamFail exFmtF).1 = true :=
  c2_rollback_keeps_old_stream exStreaming exOracleStreamFail exFmtF "busy"
    rfl rfl rfl rfl rfl rfl rfl rfl

/-- Claim C3: if applying the new pixel format and resolution succeeds but
applying the new framerate fails, the call returns `CouldntSetProperty` for
`Framerate` immediately: the OS-level format keeps the new value, the OS-level
framerate keeps the old value, and neither the cached `CameraFormat` nor the
stream handle changes. -/
theorem c3_framerate_apply_failure
    (s : V4LCaptureDevice) (o : V4LOracle) (f : CameraFormat) (why : String)
    (hqf : o.queryFormat = none) (hqp : o.queryParams = none)
    (hsf : o.setFormatNew = none) (hsp : o.setParamsNew = some why) :
    (set_camera_format s o f).2 =
      Except.error (NokhwaError.CouldntSetProperty "Framerate" (paramsRender f.framerate) why) ∧
    (set_camera_format s o f).1.device.fmt = formatFromCameraFormat f ∧
    (set_camera_format s o f).1.device.fps = s.device.fps ∧
    (set_camera_format s o f).1.camera_format = s.camera_format ∧
    (set_camera_format s o f).1.stream_handle = s.stream_handle := by
  simp [set_camera_format, hqf, hqp, hsf, hsp]

/-- Witness for C3 at the concrete configured fixture. -/
theorem c3_witness :
    (set_camera_format exConfigured exOracleSpFail exFmtF).2 =
      Except.error
        (NokhwaError.CouldntSetProperty "Framerate" (paramsRender exFmtF.framerate) "espfail") ∧
    (set_camera_format exConfigured exOracleSpFail exFmtF).1.device.fmt =
      formatFromCameraFormat exFmtF ∧
    (set_camera_format exConfigured exOracleSpFail exFmtF).1.device.fps =
      exConfigured.device.fps ∧
    (set_camera_format exConfigured exOracleSpFail exFmtF).1.camera_format =
      exConfigured.camera_format ∧
    (set_camera_format exConfigured exOracleSpFail exFmtF).1.stream_handle =
      exConfigured.stream_handle :=
  c3_framerate_apply_failure exConfigured exOracleSpFail exFmtF "espfail" rfl rfl rfl rfl

/-- Claim C4: starting from a freshly opened session (no cached format), after
any sequence of `set_camera_format` calls the cached `CameraFormat` is the
argument of the most recent call that returned success, or `None` if no call
succeeded. -/
theorem c4_cache_is_last_successful_arg
    (s : V4LCaptureDevice) (h : s.camera_format = none)
    (calls : List (V4LOracle × CameraFormat)) :
    (runCalls s calls).camera_format = lastSuccessfulArg s none calls := by
  rw [← h]
  clear h
  induction calls generalizing s with
  | nil => rfl
  | cons c rest ih =>
    simp only [runCalls, lastSuccessfulArg]
    rw [← set_camera_format_cache s c.1 c.2]
    exact ih _

/-- Witness for C4: a fresh session, one successful call with argument G and
one failed call with argument F; the cache ends equal to G. -/
theorem c4_witness :
    (runCalls exFresh [(exOracleOk, exFmtG), (exOracleQfFail, exFmtF)]).camera_format =
      lastSuccessfulArg exFresh none [(exOracleOk, exFmtG), (exOracleQfFail, exFmtF)] ∧
    lastSuccessfulArg exFresh none [(exOracleOk, exFmtG), (exOracleQfFail, exFmtF)] =
      some exFmtG :=
  ⟨c4_cache_is_last_successful_arg exFresh rfl [(exOracleOk, exFmtG), (exOracleQfFail, exFmtF)],
    rfl⟩

/-- Claim C5: if the initial format snapshot query fails, the call returns
`CouldntQueryDevice` for the resolution and frame format; if the framerate
snapshot query fails, it returns `CouldntQueryDevice` for the framerate; in
either case the entire session state — cached format, stream handle and the
OS-level device configuration — is returned unchanged, no set call having
been issued. -/
theorem c5_snapshot_query_failure_aborts
    (s : V4LCaptureDevice) (o : V4LOracle) (f : CameraFormat) (why1 why2 : String) :
    (o.queryFormat = some why1 →
      set_camera_format s o f =
        (s, Except.error (NokhwaError.CouldntQueryDevice "Resolution, FrameFormat" why1))) ∧
    (o.queryFormat = none → o.queryParams = some why2 →
      set_camera_format s o f =
        (s, Except.error (NokhwaError.CouldntQueryDevice "Framerate" why2))) := by
  constructor
  · intro h1
    simp [set_camera_format, h1]
  · intro h1 h2
    simp [set_camera_format, h1, h2]

/-- Witness for C5 at the configured fixture, once with a failing format
query and once with a failing framerate query. -/
theorem c5_witness :
    set_camera_format exConfigured exOracleQfFail exFmtF =
      (exConfigured,
        Except.error (NokhwaError.CouldntQueryDevice "Resolution, FrameFormat" "efmt")) ∧
    set_camera_format exConfigured exOracleQpFail exFmtF =
      (exConfigured, Except.error (NokhwaError.CouldntQueryDevice "Framerate" "efps")) :=
  ⟨(c5_snapshot_query_failure_aborts exConfigured exOracleQfFail exFmtF "efmt" "e").1 rfl,
    (c5_snapshot_query_failure_aborts exConfigured exOracleQpFail exFmtF "e" "efps").2 rfl rfl⟩

/-- Claim C6: with no cached format, each of `set_resolution`,
`set_framerate` and `set_frameformat` succeeds without touching the device or
the stream handle, storing a `CameraFormat` holding the requested field and
the minimal defaults for the others (zero resolution, zero framerate, MJPEG). -/
theorem c6_deferred_mutators
    (s : V4LCaptureDevice) (o : V4LOracle) (h : s.camera_format = none)
    (r : Resolution) (fps : Nat) (ff : FrameFormat) :
    set_resolution s o r =
      ({ s with camera_format := some (CameraFormat.new r FrameFormat.MJPEG 0) },
        Except.ok ()) ∧
    set_framerate s o fps =
      ({ s with camera_format := some (CameraFormat.new (Resolution.new 0 0) FrameFormat.MJPEG fps) },
        Except.ok ()) ∧
    set_frameformat s o ff =
      ({ s with camera_format := some (CameraFormat.new (Resolution.new 0 0) ff 0) },
        Except.ok ()) := by
  refine ⟨?_, ?_, ?_⟩ <;> simp [set_resolution, set_framerate, set_frameformat, h]

/-- Witness for C6 at the fresh fixture. -/
theorem c6_witness :
    set_resolution exFresh exOracleOk (Resolution.new 640 480) =
      ({ exFresh with camera_format := some (CameraFormat.new (Resolution.new 640 480) FrameFormat.MJPEG 0) },
        Except.ok ()) ∧
    set_framerate exFresh exOracleOk 25 =
      ({ exFresh with camera_format := some (CameraFormat.new (Resolution.new 0 0) FrameFormat.MJPEG 25) },
        Except.ok ()) ∧
    set_frameformat exFresh exOracleOk FrameFormat.YUYV =
      ({ exFresh with camera_format := some (CameraFormat.new (Resolution.new 0 0) FrameFormat.YUYV 0) },
        Except.ok ()) :=
  c6_deferred_mutators exFresh exOracleOk rfl (Resolution.new 640 480) 25 FrameFormat.YUYV

/-- Claim C7: with a cached format, each convenience mutator routes a copy of
the cached format with exactly the one requested field changed through the
full `set_camera_format` transaction; on success the cache equals that copy,
so it differs from the previous cache in only the requested field. -/
theorem c7_mutators_route_through_transaction
    (s : V4LCaptureDevice) (o : V4LOracle) (fmt : CameraFormat)
    (h : s.camera_format = some fmt)
    (r : Resolution) (fps : Nat) (ff : FrameFormat) :
    (set_resolution s o r = set_camera_format s o { fmt with resolution := r } ∧
      ((set_resolution s o r).2.isOk = true →
        (set_resolution s o r).1.camera_format = some { fmt with resolution := r })) ∧
    (set_framerate s o fps = set_camera_format s o { fmt with framerate := fps } ∧
      ((set_framerate s o fps).2.isOk = true →
        (set_framerate s o fps).1.camera_format = some { fmt with framerate := fps })) ∧
    (set_frameformat s o ff = set_camera_format s o { fmt with format := ff } ∧
      ((set_frameformat s o ff).2.isOk = true →
        (set_frameformat s o ff).1.camera_format = some { fmt with format := ff })) := by
  have h1 : set_resolution s o r = set_camera_format s o { fmt with resolution := r } := by
    simp [set_resolution, h, CameraFormat.set_resolution]
  have h2 : set_framerate s o fps = set_camera_format s o { fmt with framerate := fps } := by
    simp [set_framerate, h, CameraFormat.set_framerate]
  have h3 : set_frameformat s o ff = set_camera_format s o { fmt with format := ff } := by
    simp [set_frameformat, h, CameraFormat.set_format]
  refine ⟨⟨h1, ?_⟩, ⟨h2, ?_⟩, ⟨h3, ?_⟩⟩
  · rw [h1]
    intro hok
    rw [set_camera_format_cache]
    simp [hok]
  · rw [h2]
    intro hok
    rw [set_camera_format_cache]
    simp [hok]
  · rw [h3]
    intro hok
    rw [set_camera_format_cache]
    simp [hok]

/-- Witness for C7 at the configured fixture: setting the resolution to
640x480 succeeds and the cache keeps G's encoding and framerate. -/
theorem c7_witness :
    (set_resolution exConfigured exOracleOk (Resolution.new 640 480)).1.camera_format =
      some { exFmtG with resolution := Resolution.new 640 480 } :=
  ((c7_mutators_route_through_transaction exConfigured exOracleOk exFmtG rfl
      (Resolution.new 640 480) 25 FrameFormat.YUYV).1).2 rfl

/-- Claim C8: when a format is cached, `init_camera_format_default false`
returns success and leaves the entire session state unchanged with no OS
call; when none is cached, or one is cached and overwrite is true, the call
is exactly `set_camera_format` applied to the default format. -/
theorem c8_init_default_noop_or_transaction
    (s : V4LCaptureDevice) (o : V4LOracle) (fmt : CameraFormat) (b : Bool) :
    (s.camera_format = some fmt →
      init_camera_format_default s o false = (s, Except.ok ())) ∧
    (s.camera_format = some fmt →
      init_camera_format_default s o true =
        set_camera_format s o CameraFormat.defaultFormat) ∧
    (s.camera_format = none →
      init_camera_format_default s o b =
        set_camera_format s o CameraFormat.defaultFormat) := by
  refine ⟨?_, ?_, ?_⟩ <;> intro h <;> simp [init_camera_format_default, h]

/-- Witness for C8: no-op at the configured fixture, full transaction at the
configured fixture with overwrite and at the fresh fixture. -/
theorem c8_witness :
    init_camera_format_default exConfigured exOracleOk false = (exConfigured, Except.ok ()) ∧
    init_camera_format_default exConfigured exOracleOk true =
      set_camera_format exConfigured exOracleOk CameraFormat.defaultFormat ∧
    init_camera_format_default exFresh exOracleOk true =
      set_camera_format exFresh exOracleOk CameraFormat.defaultFormat :=
  ⟨(c8_init_default_noop_or_transaction exConfigured exOracleOk exFmtG true).1 rfl,
    (c8_init_default_noop_or_transaction exConfigured exOracleOk exFmtG true).2.1 rfl,
    (c8_init_default_noop_or_transaction exFresh exOracleOk exFmtG true).2.2 rfl⟩

/-- Claim C9: the translation of a `CameraFormat` into the OS-native format
preserves width and height and maps the closed encoding set totally: MJPEG to
the four-character code MJPG and YUYV to YUYV. -/
theorem c9_format_translation (cf : CameraFormat) :
    (formatFromCameraFormat cf).width = cf.width ∧
    (formatFromCameraFormat cf).height = cf.height ∧
    ((cf.format = FrameFormat.MJPEG ∧ (formatFromCameraFormat cf).fourcc = "MJPG") ∨
      (cf.format = FrameFormat.YUYV ∧ (formatFromCameraFormat cf).fourcc = "YUYV")) := by
  refine ⟨rfl, rfl, ?_⟩
  cases hf : cf.format
  · exact Or.inl ⟨rfl, by simp [formatFromCameraFormat, hf, OSFormat.new]⟩
  · exact Or.inr ⟨rfl, by simp [formatFromCameraFormat, hf, OSFormat.new]⟩

/-- Claim C10: every error return of `set_camera_format` — the snapshot
failures, both apply failures, the stream failure with successful rollback,
and both rollback-failure paths — leaves the cached `CameraFormat` exactly as
it was before the call. -/
theorem c10_cache_unchanged_on_error
    (s : V4LCaptureDevice) (o : V4LOracle) (f : CameraFormat) (e : NokhwaError)
    (h : (set_camera_format s o f).2 = Except.error e) :
    (set_camera_format s o f).1.camera_format = s.camera_format := by
  have hc := set_camera_format_cache s o f
  rw [h] at hc
  simpa [Except.isOk, Except.toBool] using hc

/-- Witness for C10 on the path where stream recreation fails and the
rollback re-apply of the snapshot format itself also fails: the cache still
holds G. -/
theorem c10_witness :
    (set_camera_format exStreaming exOracleUndoFail exFmtF).1.camera_format = some exFmtG :=
  (c10_cache_unchanged_on_error exStreaming exOracleUndoFail exFmtF
      (NokhwaError.CouldntSetProperty
        "Attempt undo due to stream acquisition failure. Resolution, FrameFormat"
        (OSFormat.render ⟨1280, 720, "MJPG"⟩) "undofail") rfl).trans rfl

end NokhwaV4L2
